import Mathlib

/-!
# Verification of the Telegram GPT bot (`bot.ts`)

A shallow embedding of the event handlers in `bot.ts`.  The external
collaborators (mongoose document store, grammY session middleware, the
completion requester, the image API) are modelled explicitly:

* the document database is a record of lists of persisted documents,
  with a monotone clock supplying `createdAt` timestamps and a fresh-id
  counter (mongoose assigns fresh unique ids and default timestamps);
* the per-conversation grammY session is the `SessionData` record from
  `src/types/types` (active chat id, image quality);
* every outward-visible action of a handler (sending a new message,
  editing a previously sent one, answering a callback query, calling the
  completion or image API, logging) is recorded as an `Effect` in order;
* awaited operations inside a handler's `try` block are gated by a
  failure oracle `failAt : Nat → Bool`, consulted with a running
  operation index: when the oracle fires the operation throws, control
  transfers to the handler's `catch` block, and the database state
  reached so far is kept (earlier writes have already been committed).

The completion requester (`answerWithChatGPT`) and the image
conversation live outside the provided source; they are modelled from
the spec where marked.
-/

/-- A persisted `User` document (`db/User`). -/
structure DUser where
  _id : Nat
  telegramId : Nat
  firstName : String
  userName : String
  selectedModel : String
deriving Repr, DecidableEq

/-- A persisted `Chat` document (`db/Chat`): owner reference plus
mongoose timestamps. -/
structure DChat where
  _id : Nat
  userId : Nat
  createdAt : Nat
  updatedAt : Nat
deriving Repr, DecidableEq

/-- A persisted `Message` document (`db/Message`). -/
structure DMessage where
  chatId : Nat
  userId : Nat
  role : String
  content : String
  createdAt : Nat
deriving Repr, DecidableEq

/-- The document database: the three collections, a fresh-id counter and
a monotone clock used for `createdAt`/`updatedAt` timestamps. -/
structure DB where
  users : List DUser
  chats : List DChat
  messages : List DMessage
  nextId : Nat
  now : Nat
deriving Repr, DecidableEq

/-- `ctx.session` — the `SessionData` of `src/types/types`: the active
chat id and the selected image-generation quality. -/
structure Session where
  chatId : Option Nat
  imageQuality : String
deriving Repr, DecidableEq

/-- The session initialiser of `bot.use(session({initial}))`:
no active chat, quality `ImageGenerationQuality.STANDARD`. -/
def initialSession : Session :=
  { chatId := none, imageQuality := "standard" }

/-- One outward-visible action of a handler, in execution order.
`reply` sends a NEW message to the chat; `edit` edits a message the bot
sent earlier (`editText`); `callGpt` records the history handed to the
completion requester; `callImageApi` records a call of the remote
image-generation API. -/
inductive Effect where
  | reply (text : String)
  | edit (text : String)
  | answerCallback (text : Option String)
  | callGpt (history : List DMessage)
  | callImageApi (prompt : String) (quality : String)
  | sendImage (image : String)
  | logged (tag : String)
deriving Repr, DecidableEq

/-! ## User-facing texts (string literals of `bot.ts`) -/

def loadingText : String := "Загрузка..."
def userNotFoundText : String :=
  "Пользователь не найден. Пожалуйста, начните новый чат с помощью команды /start."
def pleaseStartNewChatText : String :=
  "Пожалуйста, начните новый чат с помощью команды /start."
def chatNotFoundText : String :=
  "Чат не найден. Пожалуйста, начните новый чат с помощью команды /start."
def generationErrorText : String :=
  "Произошла ошибка при генерации ответа. Пожалуйста, попробуйте позже или обратитесь в поддержку."
def processingErrorText : String :=
  "Произошла ошибка при обработке запроса. Пожалуйста, обратитесь к администратору."
def pleaseStartText : String := "Пожалуйста, начните с команды /start."
def newChatCreatedText : String := "Новый чат создан. Пожалуйста, введите запрос."
def creatingBotText : String := "Создаю Ваш персональный чат-бот, одну секунду..."
def botCreatedText : String :=
  "Ваш персональный чат-бот создан. Пожалуйста, введите запрос"
def enterQueryText : String := "Пожалуйста, введите запрос"
def startErrorText : String :=
  "Произошла ошибка при создании персонального чат-бота. Пожалуйста, попробуйте позже или обратитесь в поддержку."
def cancelledCallbackText : String := "Отменено ✅"
def imageCancelledText : String := "Генерация изображения отменена"
def invalidQualityText : String :=
  "Что-то пошло не так. Пожалуйста, попробуйте позже или обратитесь в поддержку."

/-- Modelled from the spec: the greeting text `START_MESSAGE` lives in
`src/utils/consts`, which is not part of the provided source.  Its exact
wording is immaterial to the claims; what matters is that it is a static
greeting distinct from the loading placeholder. -/
def START_MESSAGE : String := "Добро пожаловать!"

/-! ## Document store operations (mongoose calls as used by `bot.ts`) -/

/-- `User.findOne({ telegramId })`. -/
def findUserByTelegramId (db : DB) (tid : Nat) : Option DUser :=
  db.users.find? (fun u => u.telegramId == tid)

/-- `User.create({ telegramId, firstName, userName })`: a fresh id is
assigned; `selectedModel` takes the schema default. -/
def createUser (db : DB) (tid : Nat) (firstName userName : String) :
    DUser × DB :=
  let u : DUser :=
    { _id := db.nextId, telegramId := tid, firstName := firstName,
      userName := userName, selectedModel := "gpt-4o-mini" }
  (u, { db with
        users := db.users ++ [u]
        nextId := db.nextId + 1
        now := db.now + 1 })

/-- `Chat.create({ userId })`: fresh id, both timestamps set to the
current clock. -/
def createChat (db : DB) (uid : Nat) : DChat × DB :=
  let c : DChat :=
    { _id := db.nextId, userId := uid, createdAt := db.now,
      updatedAt := db.now }
  (c, { db with
        chats := db.chats ++ [c]
        nextId := db.nextId + 1
        now := db.now + 1 })

/-- Descending creation order on chats (`.sort({ createdAt: -1 })`). -/
def chatCreatedAtGe (a b : DChat) : Prop := b.createdAt ≤ a.createdAt

instance : DecidableRel chatCreatedAtGe := fun a b => Nat.decLe b.createdAt a.createdAt

instance : IsTotal DChat chatCreatedAtGe := ⟨fun a b => Nat.le_total b.createdAt a.createdAt⟩

instance : IsTrans DChat chatCreatedAtGe := ⟨fun _ _ _ h h2 => Nat.le_trans h2 h⟩

/-- `Chat.findOne({ userId }).sort({ createdAt: -1 })`: the first chat of
the user in descending `createdAt` order (a stable sort models the
database's ordering). -/
def findLatestChatForUser (db : DB) (uid : Nat) : Option DChat :=
  ((db.chats.filter (fun c => c.userId == uid)).insertionSort
    chatCreatedAtGe).head?

/-- `Chat.findById(chatId)`. -/
def findChatById (db : DB) (cid : Nat) : Option DChat :=
  db.chats.find? (fun c => c._id == cid)

/-- `Message.create({ chatId, userId, role, content })`: `createdAt` is
the current clock. -/
def createMessage (db : DB) (cid uid : Nat) (role content : String) : DB :=
  { db with
    messages := db.messages ++
      [{ chatId := cid, userId := uid, role := role, content := content,
         createdAt := db.now }],
    now := db.now + 1 }

/-- Ascending creation order on messages (`.sort({ createdAt: 1 })`). -/
def createdAtLe (a b : DMessage) : Prop := a.createdAt ≤ b.createdAt

instance : DecidableRel createdAtLe := fun a b => Nat.decLe a.createdAt b.createdAt

instance : IsTotal DMessage createdAtLe := ⟨fun a b => Nat.le_total a.createdAt b.createdAt⟩

instance : IsTrans DMessage createdAtLe := ⟨fun _ _ _ => Nat.le_trans⟩

/-- `Message.find({ chatId }).sort({ createdAt: 1 }).lean()`: all of the
chat's messages in ascending `createdAt` order (a stable sort models the
database's ordering). -/
def findMessagesForChat (db : DB) (cid : Nat) : List DMessage :=
  (db.messages.filter (fun m => m.chatId == cid)).insertionSort createdAtLe

/-- `chat.save()` after mutating the document: replaces the chat with
the same `_id` by the mutated value. -/
def saveChat (db : DB) (c : DChat) : DB :=
  { db with
    chats := db.chats.map (fun x => if x._id == c._id then c else x)
    now := db.now + 1 }

/-- JavaScript `array.slice(-n)`: for `n = 0` this is `slice(0)`, the
whole array; for `n > 0`, the last `min n length` elements. -/
def sliceNeg (l : List α) (n : Nat) : List α :=
  if n = 0 then l else l.drop (l.length - n)

/-- The history window of the `message:text` handler:
`messages.slice(-MAX_HISTORY_LENGTH)` applied to the chat's messages in
chronological order.  `MAX_HISTORY_LENGTH` itself lives in
`src/utils/consts` outside the provided source, so the window size `n`
is kept as a parameter. -/
def historyFor (db : DB) (cid : Nat) (n : Nat) : List DMessage :=
  sliceNeg (findMessagesForChat db cid) n

/-! ## Handlers -/

/-- The result of running a handler: the database and session after it,
and the outward-visible effects in order. -/
structure HandlerResult where
  db : DB
  session : Session
  effects : List Effect
deriving Repr, DecidableEq

/-- JavaScript truthiness of the completion result `answer`
(`string | null | undefined`): `!answer` holds for `null`/`undefined`
and for the empty string. -/
def isFalsy : Option String → Bool
  | none => true
  | some a => a == ""

/-- A failure oracle under which no awaited operation throws. -/
def neverFail : Nat → Bool := fun _ => false

/-- A failure oracle that throws exactly at operation index `k`. -/
def failOnlyAt (k : Nat) : Nat → Bool := fun i => i == k

/-- `bot.command('start')`: greet with `START_MESSAGE`, find-or-create
the `User`, always create a fresh `Chat`, store its id in the session.
The happy path of the `try` block; database operations here are taken to
succeed (the `catch` branch is exercised by no claim about `/start`). -/
def startHandler (db : DB) (s : Session) (tid : Nat)
    (firstName userName : String) : HandlerResult :=
  match findUserByTelegramId db tid with
  | some user =>
      let (chat, db1) := createChat db user._id
      { db := db1
        session := { s with chatId := some chat._id }
        effects := [Effect.reply START_MESSAGE, Effect.reply enterQueryText] }
  | none =>
      let (user, db1) := createUser db tid firstName userName
      let (chat, db2) := createChat db1 user._id
      { db := db2
        session := { s with chatId := some chat._id }
        effects := [Effect.reply START_MESSAGE, Effect.reply creatingBotText,
                    Effect.edit botCreatedText] }

/-- `bot.command('newchat')`: require an existing `User` (else prompt to
`/start` and stop), then create a fresh `Chat` and store its id in the
session. -/
def newchatHandler (db : DB) (s : Session) (tid : Nat) : HandlerResult :=
  match findUserByTelegramId db tid with
  | none =>
      { db := db, session := s, effects := [Effect.reply pleaseStartText] }
  | some user =>
      let (chat, db1) := createChat db user._id
      { db := db1
        session := { s with chatId := some chat._id }
        effects := [Effect.reply newChatCreatedText] }

/-- The `catch` block of the `message:text` handler: edit the loading
placeholder to the generic processing-error text and log the error.
State reached before the throw is kept (earlier writes are committed). -/
def msgCatch (db : DB) (s : Session) (effs : List Effect) : HandlerResult :=
  { db := db, session := s
    effects := effs ++ [Effect.edit processingErrorText,
                        Effect.logged "message-handler"] }

/-- The tail of the `message:text` handler once `user` and `chat` are
resolved (source lines 258-300): persist the user `Message`, fetch and
window the history, call the completion requester (`answerWithChatGPT`,
modelled from the spec as never raising past its boundary), then either
report generation failure, or persist the assistant `Message`, bump the
chat's `updatedAt` and edit the placeholder with the answer.  `i` is the
index of the next awaited operation for the failure oracle. -/
def msgAfterChat (gpt : List DMessage → Nat → String → Option String)
    (maxHistory : Nat) (failAt : Nat → Bool) (db : DB) (s : Session)
    (tid : Nat) (text : String) (user : DUser) (chat : DChat) (i : Nat)
    (effs : List Effect) : HandlerResult :=
  if failAt i then msgCatch db s effs else
  let db1 := createMessage db chat._id user._id "user" text
  if failAt (i + 1) then msgCatch db1 s effs else
  let history := historyFor db1 chat._id maxHistory
  let effs1 := effs ++ [Effect.callGpt history]
  let answer := gpt history tid user.selectedModel
  if isFalsy answer then
    if failAt (i + 2) then msgCatch db1 s effs1 else
    { db := db1, session := s
      effects := effs1 ++ [Effect.edit generationErrorText] }
  else
    if failAt (i + 2) then msgCatch db1 s effs1 else
    let ans := answer.getD ""
    let db2 := createMessage db1 chat._id user._id "assistant" ans
    if failAt (i + 3) then msgCatch db2 s effs1 else
    let db3 := saveChat db2 { chat with updatedAt := db2.now }
    if failAt (i + 4) then msgCatch db3 s effs1 else
    { db := db3, session := s, effects := effs1 ++ [Effect.edit ans] }

/-- `bot.on('message:text')` (source lines 217-301).  Sends the loading
placeholder, then inside `try`: look up the `User` (stop with a
correction edit if absent); resolve the chat id from the session or fall
back to the user's most recent `Chat` (stop with a `/start` prompt if
none); load the chat by id when it came from the session (stop with a
NEW `chat not found` reply if stale); then continue in `msgAfterChat`.
Awaited operations are gated by `failAt`; a throw transfers to
`msgCatch`. -/
def messageTextHandler (gpt : List DMessage → Nat → String → Option String)
    (maxHistory : Nat) (failAt : Nat → Bool) (db : DB) (s : Session)
    (tid : Nat) (text : String) : HandlerResult :=
  let effs := [Effect.reply loadingText]
  if failAt 0 then msgCatch db s effs else
  match findUserByTelegramId db tid with
  | none =>
      if failAt 1 then msgCatch db s effs else
      { db := db, session := s, effects := effs ++ [Effect.edit userNotFoundText] }
  | some user =>
      match s.chatId with
      | none =>
          if failAt 1 then msgCatch db s effs else
          match findLatestChatForUser db user._id with
          | none =>
              if failAt 2 then msgCatch db s effs else
              { db := db, session := s
                effects := effs ++ [Effect.edit pleaseStartNewChatText] }
          | some latest =>
              let s1 := { s with chatId := some latest._id }
              msgAfterChat gpt maxHistory failAt db s1 tid text user latest 2 effs
      | some cid =>
          if failAt 1 then msgCatch db s effs else
          match findChatById db cid with
          | none =>
              if failAt 2 then msgCatch db s effs else
              { db := db, session := s
                effects := effs ++ [Effect.reply chatNotFoundText] }
          | some chat =>
              msgAfterChat gpt maxHistory failAt db s tid text user chat 2 effs

/-! ## Image-generation callbacks and dialog -/

/-- `isValidImageGenerationQuality` from `src/types/typeguards` (outside
the provided source).  Modelled from the spec: the finite set of
image-quality identifiers is "standard" and "hd". -/
def isValidImageGenerationQuality (q : String) : Bool :=
  q == "standard" || q == "hd"

/-- `bot.callbackQuery('cancelImageGeneration')` (source lines 104-108):
answer the callback with a confirmation, exit the `imageConversation`
(the `Bool` is the conversations plugin's dialog-active flag, kept
outside `Session` because it belongs to the plugin's own storage, not to
`SessionData`), edit the inline-keyboard message to the cancellation
text.  `SessionData` is not touched. -/
def cancelImageGenerationHandler (s : Session) (_d : Bool) :
    Session × Bool × List Effect :=
  (s, false,
   [Effect.answerCallback (some cancelledCallbackText),
    Effect.edit imageCancelledText])

/-- `bot.callbackQuery(Object.values(ImageGenerationQuality))` (source
lines 109-122): answer the callback, validate the data, store the chosen
quality in `session.imageQuality`, confirm, and enter the
`imageConversation`. -/
def qualityCallbackHandler (s : Session) (d : Bool) (data : String) :
    Session × Bool × List Effect :=
  if !(isValidImageGenerationQuality data) then
    (s, d, [Effect.answerCallback none, Effect.edit invalidQualityText])
  else
    ({ s with imageQuality := data }, true,
     [Effect.answerCallback none,
      Effect.edit ("Выбрано качество: " ++ data)])

/-- Modelled from the spec: the suspended `imageConversation`
(`src/conversations/imageConversation`, not in the provided source)
resuming on the user's prompt message.  Per spec §4.5 the `Generating`
state calls the remote image-generation API once with the prompt and the
session's stored quality; on success it delivers the image, on failure a
generic error message.  With no active dialog the message falls through
to the ordinary router (nothing happens here). -/
def submitImagePrompt (imageApi : String → String → Option String)
    (s : Session) (d : Bool) (prompt : String) :
    Session × Bool × List Effect :=
  if d then
    match imageApi prompt s.imageQuality with
    | some img =>
        (s, false,
         [Effect.callImageApi prompt s.imageQuality, Effect.sendImage img])
    | none =>
        (s, false,
         [Effect.callImageApi prompt s.imageQuality,
          Effect.logged "image-generation"])
  else (s, d, [])

/-- `bot.command('image')` (source lines 191-210): with the
`IMAGE_QUALITY_CHANGE_AVAILABLE` flag unset, enter the
`imageConversation` directly; otherwise present the quality keyboard as
a new message. -/
def imageCommandHandler (qualityChangeAvailable : Bool) (s : Session)
    (d : Bool) : Session × Bool × List Effect :=
  if !qualityChangeAvailable then
    (s, true, [])
  else
    (s, d, [Effect.reply "Выберите качество изображения"])

/-! ## Startup (module initialisation and `startBot`) -/

/-- The relevant environment variables. -/
structure Env where
  BOT_API_KEY : Option String
  MONGO_DB_URI : Option String
deriving Repr, DecidableEq

/-- JavaScript truthiness of a `process.env` entry: unset or empty is
falsy. -/
def envTruthy : Option String → Bool
  | none => false
  | some s => s != ""

/-- Module initialisation (source lines 30-33): a missing `BOT_API_KEY`
throws at module load, an uncaught exception that aborts process
start. -/
def moduleInit (env : Env) : Except String Unit :=
  if !(envTruthy env.BOT_API_KEY) then
    Except.error "BOT_API_KEY is not defined"
  else Except.ok ()

/-- The observable outcome of `startBot` (source lines 324-340). -/
structure StartBotResult where
  botStarted : Bool
  loggedError : Option String
deriving Repr, DecidableEq

/-- `startBot` (source lines 324-340): everything runs inside
`try { ... } catch (error) { logError(...) }`, so `startBot` always
returns normally — a missing `MONGO_DB_URI` or a failed connection is
caught and logged, and the bot is simply not started.
`connectReadyState` abstracts `mongoose.connect(...).connection.readyState`. -/
def startBot (env : Env) (connectReadyState : Bool) : StartBotResult :=
  if !(envTruthy env.MONGO_DB_URI) then
    { botStarted := false, loggedError := some "MONGO_DB_URI is not defined" }
  else if !connectReadyState then
    { botStarted := false, loggedError := some "Mongoose connection error" }
  else
    { botStarted := true, loggedError := none }

/-! ## Helper predicates used by the theorems -/

/-- Chronological order: `createdAt` is non-decreasing along the list. -/
def chronological (l : List DMessage) : Prop :=
  l.Pairwise (fun a b => a.createdAt ≤ b.createdAt)

/-- The image-API calls recorded in an effect list, as
(prompt, quality) pairs. -/
def imageApiCalls (effs : List Effect) : List (String × String) :=
  effs.filterMap (fun e =>
    match e with
    | Effect.callImageApi p q => some (p, q)
    | _ => none)

/-- A `reply` effect (a NEW message sent to the chat) whose text is not
the loading placeholder. -/
def isNonLoadingReply : Effect → Bool
  | Effect.reply t => t != loadingText
  | _ => false

/-- The assistant messages in a collection. -/
def assistantMessages (msgs : List DMessage) : List DMessage :=
  msgs.filter (fun m => m.role == "assistant")

/-! ## Concrete instances used by witnesses and counterexamples -/

/-- An empty database. -/
def dbEmpty : DB :=
  { users := [], chats := [], messages := [], nextId := 0, now := 0 }

/-- A registered user. -/
def userW : DUser :=
  { _id := 0, telegramId := 1, firstName := "Ann", userName := "ann",
    selectedModel := "gpt-4o-mini" }

/-- A chat owned by `userW`. -/
def chatW : DChat := { _id := 1, userId := 0, createdAt := 1, updatedAt := 1 }

/-- A database holding `userW` and `chatW` and no messages. -/
def dbW : DB :=
  { users := [userW], chats := [chatW], messages := [], nextId := 2, now := 2 }

/-- A session whose active chat is `chatW`. -/
def sW : Session := { chatId := some 1, imageQuality := "standard" }

/-- A completion requester that always fails to produce text. -/
def gptNone : List DMessage → Nat → String → Option String :=
  fun _ _ _ => none

/-- A completion requester that always answers `"ok"`. -/
def gptOk : List DMessage → Nat → String → Option String :=
  fun _ _ _ => some "ok"

/-! ## Ordering lemmas for the history assembler -/

theorem chronological_findMessagesForChat (db : DB) (cid : Nat) :
    chronological (findMessagesForChat db cid) :=
  List.sorted_insertionSort createdAtLe _

theorem findMessagesForChat_perm (db : DB) (cid : Nat) :
    List.Perm (findMessagesForChat db cid)
      (db.messages.filter (fun m => m.chatId == cid)) :=
  List.perm_insertionSort createdAtLe _

theorem sliceNeg_of_le {α : Type} {l : List α} {n : Nat}
    (h : l.length ≤ n) : sliceNeg l n = l := by
  unfold sliceNeg
  split
  · rfl
  · have hz : l.length - n = 0 := by omega
    rw [hz, List.drop_zero]

theorem length_sliceNeg {α : Type} {l : List α} {n : Nat} (h0 : 0 < n)
    (h : n < l.length) : (sliceNeg l n).length = n := by
  unfold sliceNeg
  have hne : ¬ n = 0 := by omega
  rw [if_neg hne, List.length_drop]
  omega

theorem take_append_sliceNeg {α : Type} (l : List α) {n : Nat}
    (h0 : 0 < n) : l.take (l.length - n) ++ sliceNeg l n = l := by
  unfold sliceNeg
  have hne : ¬ n = 0 := by omega
  rw [if_neg hne, List.take_append_drop]

theorem chronological_sliceNeg {l : List DMessage} (h : chronological l)
    (n : Nat) : chronological (sliceNeg l n) := by
  unfold sliceNeg
  split
  · exact h
  · exact List.Pairwise.sublist (List.drop_sublist _ _) h

/-- The history handed to the completion requester is recorded by the
`callGpt` effect on every run of the handler tail that reaches it. -/
theorem callGpt_mem_msgAfterChat
    (gpt : List DMessage → Nat → String → Option String) (N : Nat)
    (db : DB) (s : Session) (tid : Nat) (text : String) (user : DUser)
    (chat : DChat) (i : Nat) (effs : List Effect) :
    Effect.callGpt
        (historyFor (createMessage db chat._id user._id "user" text)
          chat._id N) ∈
      (msgAfterChat gpt N neverFail db s tid text user chat i effs).effects := by
  simp only [msgAfterChat, neverFail, Bool.false_eq_true, if_false]
  split <;> simp

/-- Path reduction: with no failures, a found user, a session chat id
and a found chat, the `message:text` handler runs its tail. -/
theorem messageTextHandler_session_path
    (gpt : List DMessage → Nat → String → Option String) (N : Nat)
    (db : DB) (s : Session) (tid : Nat) (text : String) {user : DUser}
    {cid : Nat} {chat : DChat}
    (hu : findUserByTelegramId db tid = some user)
    (hs : s.chatId = some cid)
    (hc : findChatById db cid = some chat) :
    messageTextHandler gpt N neverFail db s tid text =
      msgAfterChat gpt N neverFail db s tid text user chat 2
        [Effect.reply loadingText] := by
  simp [messageTextHandler, neverFail, hu, hs, hc]

/-- C1: the history supplied to the completion requester is obtained by
fetching all of the chat's messages in ascending creation order and
keeping only the final `MAX_HISTORY_LENGTH`: all `M` of them, in
chronological order, when `M ≤ N`, and exactly the last `N` — a
contiguous suffix, still chronological — when `M > N`.  The window
constant is an abstract positive `N`, since `MAX_HISTORY_LENGTH` is
defined in `src/utils/consts`, outside the provided source. -/
theorem history_window_correct
    (gpt : List DMessage → Nat → String → Option String)
    (N : Nat) (db : DB) (s : Session) (tid : Nat) (text : String)
    (user : DUser) (cid : Nat) (chat : DChat)
    (hN : 0 < N)
    (hu : findUserByTelegramId db tid = some user)
    (hs : s.chatId = some cid)
    (hc : findChatById db cid = some chat) :
    let db1 := createMessage db chat._id user._id "user" text
    let sorted := findMessagesForChat db1 chat._id
    Effect.callGpt (historyFor db1 chat._id N) ∈
      (messageTextHandler gpt N neverFail db s tid text).effects ∧
    List.Perm sorted (db1.messages.filter (fun m => m.chatId == chat._id)) ∧
    chronological sorted ∧
    (sorted.length ≤ N → historyFor db1 chat._id N = sorted) ∧
    (N < sorted.length →
      (historyFor db1 chat._id N).length = N ∧
      sorted.take (sorted.length - N) ++ historyFor db1 chat._id N =
        sorted ∧
      chronological (historyFor db1 chat._id N)) := by
  intro db1 sorted
  refine ⟨?_, findMessagesForChat_perm db1 chat._id,
    chronological_findMessagesForChat db1 chat._id, ?_, ?_⟩
  · rw [messageTextHandler_session_path gpt N db s tid text hu hs hc]
    exact callGpt_mem_msgAfterChat gpt N db s tid text user chat 2 _
  · intro hle
    exact sliceNeg_of_le hle
  · intro hlt
    exact ⟨length_sliceNeg hN hlt, take_append_sliceNeg _ hN,
      chronological_sliceNeg
        (chronological_findMessagesForChat db1 chat._id) N⟩

/-- C1 witness: the theorem applied to the concrete database `dbW` with
window size 2. -/
theorem history_window_correct_witness :
    0 < 2 ∧
    Effect.callGpt (historyFor (createMessage dbW 1 0 "user" "hi") 1 2) ∈
      (messageTextHandler gptNone 2 neverFail dbW sW 1 "hi").effects :=
  ⟨by decide,
   (history_window_correct gptNone 2 dbW sW 1 "hi" userW 1 chatW
      (by decide) rfl rfl rfl).1⟩

/-- C2: every `/start` invocation appends exactly one new `Chat` to the
store and sets it as the session's active chat; a new `User` is appended
iff no user with the sender's telegram id existed. -/
theorem start_creates_one_chat (db : DB) (s : Session) (tid : Nat)
    (firstName userName : String) :
    (∃ c, (startHandler db s tid firstName userName).db.chats =
        db.chats ++ [c] ∧
      (startHandler db s tid firstName userName).session.chatId =
        some c._id) ∧
    (findUserByTelegramId db tid = none →
      ∃ u, (startHandler db s tid firstName userName).db.users =
          db.users ++ [u] ∧ u.telegramId = tid) ∧
    (∀ u, findUserByTelegramId db tid = some u →
      (startHandler db s tid firstName userName).db.users = db.users) := by
  cases hu : findUserByTelegramId db tid with
  | none =>
      refine ⟨⟨{ _id := db.nextId + 1, userId := db.nextId,
                 createdAt := db.now + 1, updatedAt := db.now + 1 },
               ?_, ?_⟩,
        fun _ => ⟨{ _id := db.nextId, telegramId := tid,
                    firstName := firstName, userName := userName,
                    selectedModel := "gpt-4o-mini" }, ?_, rfl⟩,
        fun u h => ?_⟩
      · simp [startHandler, hu, createUser, createChat]
      · simp [startHandler, hu, createUser, createChat]
      · simp [startHandler, hu, createUser, createChat]
      · exact absurd h (by simp)
  | some u0 =>
      refine ⟨⟨{ _id := db.nextId, userId := u0._id,
                 createdAt := db.now, updatedAt := db.now }, ?_, ?_⟩,
        fun h => ?_, fun u h => ?_⟩
      · simp [startHandler, hu, createChat]
      · simp [startHandler, hu, createChat]
      · exact absurd h (by simp)
      · simp [startHandler, hu, createChat]

/-- C2 witness: `/start` from a fresh sender on the empty database. -/
theorem start_creates_one_chat_witness :
    findUserByTelegramId dbEmpty 7 = none ∧
    (∃ u, (startHandler dbEmpty initialSession 7 "Bob" "bob").db.users =
        dbEmpty.users ++ [u] ∧ u.telegramId = 7) ∧
    (∃ c, (startHandler dbEmpty initialSession 7 "Bob" "bob").db.chats =
        dbEmpty.chats ++ [c] ∧
      (startHandler dbEmpty initialSession 7 "Bob" "bob").session.chatId =
        some c._id) :=
  ⟨rfl,
   (start_creates_one_chat dbEmpty initialSession 7 "Bob" "bob").2.1 rfl,
   (start_creates_one_chat dbEmpty initialSession 7 "Bob" "bob").1⟩

/-- C3: when the completion requester returns an empty/absent result,
the loading placeholder is edited to the generic generation-failure
text, the user's message has already been persisted, and no assistant
message is created. -/
theorem completion_failure_keeps_user_message
    (gpt : List DMessage → Nat → String → Option String) (N : Nat)
    (db : DB) (s : Session) (tid : Nat) (text : String)
    {user : DUser} {cid : Nat} {chat : DChat}
    (hu : findUserByTelegramId db tid = some user)
    (hs : s.chatId = some cid)
    (hc : findChatById db cid = some chat)
    (hgpt : ∀ h t m, isFalsy (gpt h t m) = true) :
    (messageTextHandler gpt N neverFail db s tid text).effects =
      [Effect.reply loadingText,
       Effect.callGpt
         (historyFor (createMessage db chat._id user._id "user" text)
           chat._id N),
       Effect.edit generationErrorText] ∧
    (messageTextHandler gpt N neverFail db s tid text).db.messages =
      db.messages ++
        [{ chatId := chat._id, userId := user._id, role := "user",
           content := text, createdAt := db.now }] ∧
    assistantMessages
        (messageTextHandler gpt N neverFail db s tid text).db.messages =
      assistantMessages db.messages := by
  rw [messageTextHandler_session_path gpt N db s tid text hu hs hc]
  refine ⟨?_, ?_, ?_⟩ <;>
    simp [msgAfterChat, neverFail, hgpt, createMessage, assistantMessages,
      List.filter_append]

/-- C3 witness: concrete run with the always-failing requester. -/
theorem completion_failure_keeps_user_message_witness :
    (messageTextHandler gptNone 2 neverFail dbW sW 1 "hi").effects =
      [Effect.reply loadingText,
       Effect.callGpt (historyFor (createMessage dbW 1 0 "user" "hi") 1 2),
       Effect.edit generationErrorText] ∧
    (messageTextHandler gptNone 2 neverFail dbW sW 1 "hi").db.messages =
      dbW.messages ++
        [{ chatId := 1, userId := 0, role := "user", content := "hi",
           createdAt := 2 }] :=
  ⟨(completion_failure_keeps_user_message gptNone 2 dbW sW 1 "hi"
      rfl rfl rfl (fun _ _ _ => rfl)).1,
   (completion_failure_keeps_user_message gptNone 2 dbW sW 1 "hi"
      rfl rfl rfl (fun _ _ _ => rfl)).2.1⟩

/-- C4: a free-text message with no active session chat whose sender
owns no chat in storage (or no user record at all) leaves the database
and session untouched and only edits the placeholder to a correction
prompting `/start`. -/
theorem no_chat_prompts_start
    (gpt : List DMessage → Nat → String → Option String) (N : Nat)
    (db : DB) (s : Session) (tid : Nat) (text : String)
    (hs : s.chatId = none)
    (hnochat : ∀ u, findUserByTelegramId db tid = some u →
      findLatestChatForUser db u._id = none) :
    (messageTextHandler gpt N neverFail db s tid text).db = db ∧
    (messageTextHandler gpt N neverFail db s tid text).session = s ∧
    ∃ t, (messageTextHandler gpt N neverFail db s tid text).effects =
        [Effect.reply loadingText, Effect.edit t] ∧
      (t = userNotFoundText ∨ t = pleaseStartNewChatText) := by
  cases hu : findUserByTelegramId db tid with
  | none =>
      refine ⟨?_, ?_, userNotFoundText, ?_, Or.inl rfl⟩ <;>
        simp [messageTextHandler, neverFail, hu]
  | some u =>
      have hl := hnochat u hu
      refine ⟨?_, ?_, pleaseStartNewChatText, ?_, Or.inr rfl⟩ <;>
        simp [messageTextHandler, neverFail, hu, hs, hl]

/-- C4 witness: concrete run on the empty database. -/
theorem no_chat_prompts_start_witness :
    (messageTextHandler gptNone 2 neverFail dbEmpty initialSession 1
        "hi").db = dbEmpty ∧
    (messageTextHandler gptNone 2 neverFail dbEmpty initialSession 1
        "hi").session = initialSession :=
  ⟨(no_chat_prompts_start gptNone 2 dbEmpty initialSession 1 "hi" rfl
      (fun u h => by simp [findUserByTelegramId, dbEmpty] at h)).1,
   (no_chat_prompts_start gptNone 2 dbEmpty initialSession 1 "hi" rfl
      (fun u h => by simp [findUserByTelegramId, dbEmpty] at h)).2.1⟩

/-- C5: `/newchat` from a sender with no `User` record replies with the
`/start` correction and leaves the database (in particular the chat
collection) and session unchanged. -/
theorem newchat_without_user (db : DB) (s : Session) (tid : Nat)
    (hu : findUserByTelegramId db tid = none) :
    newchatHandler db s tid =
      { db := db, session := s,
        effects := [Effect.reply pleaseStartText] } := by
  simp [newchatHandler, hu]

/-- C5 witness: concrete run on the empty database. -/
theorem newchat_without_user_witness :
    newchatHandler dbEmpty initialSession 3 =
      { db := dbEmpty, session := initialSession,
        effects := [Effect.reply pleaseStartText] } :=
  newchat_without_user dbEmpty initialSession 3 rfl

/-- Helper for the amended C6: the handler tail never sends any new
message beyond what it was handed. -/
theorem msgAfterChat_new_messages
    (gpt : List DMessage → Nat → String → Option String) (N : Nat)
    (failAt : Nat → Bool) (db : DB) (s : Session) (tid : Nat)
    (text : String) (user : DUser) (chat : DChat) (i : Nat)
    (effs : List Effect)
    (heffs : (effs.filter isNonLoadingReply).all
      (fun e => e == Effect.reply chatNotFoundText) = true) :
    (((msgAfterChat gpt N failAt db s tid text user chat i
          effs).effects.filter isNonLoadingReply).all
      (fun e => e == Effect.reply chatNotFoundText)) = true := by
  simp only [msgAfterChat, msgCatch]
  repeat' split
  all_goals
    simp [List.filter_append, List.all_append, heffs, isNonLoadingReply]

/-- C6 counterexample: the `/start` handler at a concrete input sends
new messages (the greeting among them) instead of delivering every
reply by editing a loading placeholder, so the claim that every
externally visible reply is delivered by editing a single loading
placeholder is false on the code. -/
theorem replies_not_only_via_placeholder_cex :
    ¬ (∀ e ∈ (startHandler dbEmpty initialSession 1 "Ann" "ann").effects,
        isNonLoadingReply e = false) := by
  decide

/-- C6 amended: in the free-text message handler, under any failure
pattern, the only new message sent besides the single loading
placeholder is the chat-not-found correction reply; every other
user-visible response is delivered by editing the placeholder.  Command
handlers (`/start`, `/newchat`, `/help`) do send new messages. -/
theorem message_handler_new_messages
    (gpt : List DMessage → Nat → String → Option String) (N : Nat)
    (failAt : Nat → Bool) (db : DB) (s : Session) (tid : Nat)
    (text : String) :
    (((messageTextHandler gpt N failAt db s tid
          text).effects.filter isNonLoadingReply).all
      (fun e => e == Effect.reply chatNotFoundText)) = true := by
  have base : (([Effect.reply loadingText]).filter isNonLoadingReply).all
      (fun e => e == Effect.reply chatNotFoundText) = true := by decide
  simp only [messageTextHandler]
  repeat' split
  all_goals
    first
      | exact msgAfterChat_new_messages gpt N failAt db _ tid text _ _ _ _ base
      | simp [msgCatch, List.filter_append, List.all_append,
          isNonLoadingReply]

/-- C7 counterexample: with the platform key present but the database
connection string absent, module initialisation succeeds and `startBot`
returns normally — the missing credential is caught inside `startBot`
and merely logged, the bot is not started, and process start is NOT
aborted.  This refutes the claim that absence of either credential
aborts process start. -/
theorem missing_mongo_uri_not_fatal_cex :
    moduleInit { BOT_API_KEY := some "key", MONGO_DB_URI := none } =
      Except.ok () ∧
    startBot { BOT_API_KEY := some "key", MONGO_DB_URI := none } true =
      { botStarted := false,
        loggedError := some "MONGO_DB_URI is not defined" } :=
  ⟨rfl, rfl⟩

/-- C7 amended: a missing (or empty) `BOT_API_KEY` throws at module
load, aborting process start; a missing `MONGO_DB_URI` is caught inside
`startBot`, which logs the error and leaves the bot unstarted without
aborting the process. -/
theorem startup_credentials (env : Env) (ready : Bool) :
    (envTruthy env.BOT_API_KEY = false →
      moduleInit env = Except.error "BOT_API_KEY is not defined") ∧
    (envTruthy env.BOT_API_KEY = true → moduleInit env = Except.ok ()) ∧
    (envTruthy env.MONGO_DB_URI = false →
      startBot env ready =
        { botStarted := false,
          loggedError := some "MONGO_DB_URI is not defined" }) := by
  refine ⟨fun h => ?_, fun h => ?_, fun h => ?_⟩ <;>
    simp [moduleInit, startBot, h]

/-- C7 witness: both credentials absent — module initialisation throws. -/
theorem startup_credentials_witness :
    envTruthy ({ BOT_API_KEY := none, MONGO_DB_URI := none } : Env).BOT_API_KEY = false ∧
    moduleInit { BOT_API_KEY := none, MONGO_DB_URI := none } =
      Except.error "BOT_API_KEY is not defined" :=
  ⟨rfl,
   (startup_credentials { BOT_API_KEY := none, MONGO_DB_URI := none }
      true).1 rfl⟩

/-- C8: the cancel callback exits the image dialog and records no
image-API call; selecting a valid quality and then submitting a prompt
calls the image API exactly once, with exactly that quality. -/
theorem image_cancel_vs_quality
    (s : Session) (d : Bool) (api : String → String → Option String)
    (prompt q : String)
    (hq : isValidImageGenerationQuality q = true) :
    imageApiCalls (cancelImageGenerationHandler s d).2.2 = [] ∧
    (cancelImageGenerationHandler s d).2.1 = false ∧
    imageApiCalls
        ((qualityCallbackHandler s d q).2.2 ++
          (submitImagePrompt api (qualityCallbackHandler s d q).1
            (qualityCallbackHandler s d q).2.1 prompt).2.2) =
      [(prompt, q)] := by
  refine ⟨rfl, rfl, ?_⟩
  cases hapi : api prompt q <;>
    simp [qualityCallbackHandler, hq, submitImagePrompt, imageApiCalls,
      hapi]

/-- C8 witness: quality "hd" then prompt "cat". -/
theorem image_cancel_vs_quality_witness :
    isValidImageGenerationQuality "hd" = true ∧
    imageApiCalls
        ((qualityCallbackHandler initialSession false "hd").2.2 ++
          (submitImagePrompt (fun _ _ => some "img")
            (qualityCallbackHandler initialSession false "hd").1
            (qualityCallbackHandler initialSession false "hd").2.1
            "cat").2.2) =
      [("cat", "hd")] :=
  ⟨rfl,
   (image_cancel_vs_quality initialSession false (fun _ _ => some "img")
      "cat" "hd" rfl).2.2⟩

/-- Helper for the amended C9: if the handler tail leaves the chat
collection changed, the run reached the timestamp save, so exactly the
user message and an assistant message were appended. -/
theorem msgAfterChat_chats
    (gpt : List DMessage → Nat → String → Option String) (N : Nat)
    (failAt : Nat → Bool) (db : DB) (s : Session) (tid : Nat)
    (text : String) (user : DUser) (chat : DChat) (i : Nat)
    (effs : List Effect) :
    (msgAfterChat gpt N failAt db s tid text user chat i
        effs).db.chats ≠ db.chats →
      ∃ u a, (msgAfterChat gpt N failAt db s tid text user chat i
          effs).db.messages = db.messages ++ [u, a] ∧
        u.role = "user" ∧ u.content = text ∧ a.role = "assistant" := by
  simp only [msgAfterChat, msgCatch]
  repeat' split
  all_goals intro h
  all_goals
    first
      | exact absurd rfl h
      | exact ⟨{ chatId := chat._id, userId := user._id, role := "user",
                 content := text, createdAt := db.now },
               { chatId := chat._id, userId := user._id,
                 role := "assistant",
                 content := (gpt
                   (historyFor
                     (createMessage db chat._id user._id "user" text)
                     chat._id N) tid user.selectedModel).getD "",
                 createdAt := db.now + 1 },
               by simp [createMessage, saveChat], rfl, rfl, rfl⟩

/-- Helper for the amended C9: with an always-empty completion result
the chat collection is unchanged and no assistant message appears,
under any failure pattern. -/
theorem msgAfterChat_falsy
    (gpt : List DMessage → Nat → String → Option String) (N : Nat)
    (failAt : Nat → Bool) (db : DB) (s : Session) (tid : Nat)
    (text : String) (user : DUser) (chat : DChat) (i : Nat)
    (effs : List Effect)
    (hgpt : ∀ h t m, isFalsy (gpt h t m) = true) :
    (msgAfterChat gpt N failAt db s tid text user chat i
        effs).db.chats = db.chats ∧
    assistantMessages (msgAfterChat gpt N failAt db s tid text user chat
        i effs).db.messages = assistantMessages db.messages := by
  simp only [msgAfterChat, msgCatch, hgpt]
  repeat' split
  all_goals
    simp_all [createMessage, assistantMessages, List.filter_append]

/-- C9 counterexample: with the failure oracle throwing exactly at the
final placeholder edit (operation index 6 on the session-chat success
path), an error is thrown and caught by the handler — yet the chat's
`updatedAt` has already been bumped and the assistant message
persisted.  This refutes the claim that whenever any error is thrown
the handler returns before the timestamp bump with the chat unchanged
and no assistant message. -/
theorem error_after_bump_cex :
    (Effect.logged "message-handler") ∈
      (messageTextHandler gptOk 10 (failOnlyAt 6) dbW sW 1 "hi").effects ∧
    (messageTextHandler gptOk 10 (failOnlyAt 6) dbW sW 1
        "hi").db.chats ≠ dbW.chats ∧
    assistantMessages
        (messageTextHandler gptOk 10 (failOnlyAt 6) dbW sW 1
          "hi").db.messages ≠ [] := by
  decide

/-- C9 amended: the chat collection (and so `updatedAt`) is modified
only on runs that reached the timestamp save after a non-empty
completion result — whenever the chat collection changed, exactly the
user message and an assistant message were appended; with an
empty/absent completion result the chat collection is unchanged and no
assistant message is created (the user's message, written earlier, may
persist).  An error thrown after the bump — at the final placeholder
edit — leaves the bump and the assistant message in place. -/
theorem updatedAt_bump_only_on_success
    (gpt : List DMessage → Nat → String → Option String) (N : Nat)
    (failAt : Nat → Bool) (db : DB) (s : Session) (tid : Nat)
    (text : String) :
    ((messageTextHandler gpt N failAt db s tid text).db.chats ≠
        db.chats →
      ∃ u a, (messageTextHandler gpt N failAt db s tid
          text).db.messages = db.messages ++ [u, a] ∧
        u.role = "user" ∧ u.content = text ∧ a.role = "assistant") ∧
    ((∀ h t m, isFalsy (gpt h t m) = true) →
      (messageTextHandler gpt N failAt db s tid text).db.chats =
        db.chats ∧
      assistantMessages (messageTextHandler gpt N failAt db s tid
          text).db.messages = assistantMessages db.messages) := by
  constructor
  · simp only [messageTextHandler]
    repeat' split
    all_goals
      first
        | (intro h; exact absurd rfl h)
        | apply msgAfterChat_chats
  · intro hgpt
    simp only [messageTextHandler]
    repeat' split
    all_goals
      first
        | exact ⟨rfl, rfl⟩
        | exact msgAfterChat_falsy _ _ _ _ _ _ _ _ _ _ _ hgpt

/-- C9 witness: a successful run appends exactly the user and assistant
messages; an always-failing requester leaves the chat collection
unchanged. -/
theorem updatedAt_bump_only_on_success_witness :
    (∃ u a, (messageTextHandler gptOk 2 neverFail dbW sW 1
        "hi").db.messages = dbW.messages ++ [u, a] ∧
      u.role = "user" ∧ u.content = "hi" ∧ a.role = "assistant") ∧
    (messageTextHandler gptNone 2 neverFail dbW sW 1 "hi").db.chats =
      dbW.chats :=
  ⟨(updatedAt_bump_only_on_success gptOk 2 neverFail dbW sW 1 "hi").1
      (by decide),
   ((updatedAt_bump_only_on_success gptNone 2 neverFail dbW sW 1
      "hi").2 (fun _ _ _ => rfl)).1⟩

/-- Helper for C10: the handler tail returns the session it was handed
unchanged. -/
theorem msgAfterChat_session
    (gpt : List DMessage → Nat → String → Option String) (N : Nat)
    (failAt : Nat → Bool) (db : DB) (s : Session) (tid : Nat)
    (text : String) (user : DUser) (chat : DChat) (i : Nat)
    (effs : List Effect) :
    (msgAfterChat gpt N failAt db s tid text user chat i
        effs).session = s := by
  simp only [msgAfterChat, msgCatch]
  repeat' split
  all_goals rfl

/-- Helper for C10: the free-text handler never writes the session's
image quality. -/
theorem messageTextHandler_imageQuality
    (gpt : List DMessage → Nat → String → Option String) (N : Nat)
    (failAt : Nat → Bool) (db : DB) (s : Session) (tid : Nat)
    (text : String) :
    (messageTextHandler gpt N failAt db s tid
        text).session.imageQuality = s.imageQuality := by
  simp only [messageTextHandler]
  repeat' split
  all_goals
    first
      | rfl
      | (rw [msgAfterChat_session]; try rfl)

/-- C10: `imageQuality` starts as "standard" and is written only by the
quality-selection callback — the cancel handler returns `SessionData`
unchanged, the `/start`, `/newchat` and free-text handlers never touch
the field, and a quality selected before a cancellation is still the
one used by a subsequent image generation. -/
theorem image_quality_persistence
    (db : DB) (s : Session) (d : Bool)
    (gpt : List DMessage → Nat → String → Option String) (N : Nat)
    (failAt : Nat → Bool) (tid : Nat)
    (text firstName userName prompt q : String)
    (api : String → String → Option String)
    (hq : isValidImageGenerationQuality q = true) :
    initialSession.imageQuality = "standard" ∧
    (cancelImageGenerationHandler s d).1 = s ∧
    (qualityCallbackHandler s d q).1 = { s with imageQuality := q } ∧
    (startHandler db s tid firstName userName).session.imageQuality =
      s.imageQuality ∧
    (newchatHandler db s tid).session.imageQuality = s.imageQuality ∧
    (messageTextHandler gpt N failAt db s tid
        text).session.imageQuality = s.imageQuality ∧
    imageApiCalls
        (submitImagePrompt api
          (imageCommandHandler false
            (cancelImageGenerationHandler
              (qualityCallbackHandler s d q).1 true).1
            (cancelImageGenerationHandler
              (qualityCallbackHandler s d q).1 true).2.1).1
          (imageCommandHandler false
            (cancelImageGenerationHandler
              (qualityCallbackHandler s d q).1 true).1
            (cancelImageGenerationHandler
              (qualityCallbackHandler s d q).1 true).2.1).2.1
          prompt).2.2 =
      [(prompt, q)] := by
  refine ⟨rfl, rfl, ?_, ?_, ?_,
    messageTextHandler_imageQuality gpt N failAt db s tid text, ?_⟩
  · simp [qualityCallbackHandler, hq]
  · cases hu : findUserByTelegramId db tid <;>
      simp [startHandler, hu, createUser, createChat]
  · cases hu : findUserByTelegramId db tid <;>
      simp [newchatHandler, hu, createChat]
  · cases hapi : api prompt q <;>
      simp [qualityCallbackHandler, hq, cancelImageGenerationHandler,
        imageCommandHandler, submitImagePrompt, imageApiCalls, hapi]

/-- C10 witness: quality "hd" stored by the callback. -/
theorem image_quality_persistence_witness :
    isValidImageGenerationQuality "hd" = true ∧
    (qualityCallbackHandler initialSession false "hd").1 =
      { initialSession with imageQuality := "hd" } :=
  ⟨rfl,
   (image_quality_persistence dbEmpty initialSession false gptNone 2
      neverFail 1 "hi" "A" "a" "cat" "hd" (fun _ _ => some "img")
      rfl).2.2.1⟩
